/-
Verification of the student-records service (dz3.py): session-scoped caching
with background-task cache coherence.

The Python source is shallowly embedded: the Redis cache is an association
list of keys to deserialized payloads (json.dumps/json.loads round-trips the
payloads involved, so serialization is modeled as the identity), the SQLite
store is a list of records, and each route handler is a pure state
transformer.  Exceptions (`HTTPException`, `TypeError`) are modeled with
`Except`.  Every definition is translated from the source file; line numbers
of the source are given in the doc comments.
-/
import Mathlib

namespace Dz3

/-- A row of the `students` table (dz3.py lines 23-31). -/
structure StudentRec where
  id : Int
  surname : String
  name : String
  faculty : String
  course : String
  grade : Int
deriving DecidableEq, Repr

/-- A row of the `users` table (dz3.py lines 33-40); `session_token` and
`token_expiry` are nullable columns. -/
structure UserRec where
  id : Int
  username : String
  password : String
  session_token : Option String
  token_expiry : Option Int
deriving DecidableEq, Repr

/-- Pydantic model `StudentCreate` (dz3.py lines 43-48). -/
structure StudentCreate where
  surname : String
  name : String
  faculty : String
  course : String
  grade : Int
deriving DecidableEq, Repr

/-- Pydantic model `StudentUpdate` (dz3.py lines 50-55): all fields optional,
`none` means the field was not supplied (`exclude_unset`). -/
structure StudentUpdate where
  surname : Option String
  name : Option String
  faculty : Option String
  course : Option String
  grade : Option Int
deriving DecidableEq, Repr

/-- Deserialized cache payloads: the JSON values the routes relevant to the
claims store via `json.dumps` (a list of students or a single student). -/
inductive CVal where
  | vStudents : List StudentRec → CVal
  | vStudent : StudentRec → CVal
deriving DecidableEq, Repr

/-- The Redis keyspace: an association list from keys to payloads.  Redis
holds each key once; the embedding allows shadowed duplicates, which all
cache operations treat exactly like an overwritten key. -/
abbrev Cache := List (String × CVal)

/-- Errors a route can raise: `HTTPException(status_code)` or a Python
`TypeError`. -/
inductive PyErr where
  | http (code : Nat)
  | typeError
deriving DecidableEq, Repr

/-- Lexicographic non-strict comparison of character lists: Python's string
`<=`. -/
def charListLe : List Char → List Char → Bool
  | [], _ => true
  | _ :: _, [] => false
  | a :: as, b :: bs => if a < b then true else if b < a then false else charListLe as bs

/-- Lexicographic strict comparison of character lists: Python's string
`<`. -/
def charListLt : List Char → List Char → Bool
  | [], [] => false
  | [], _ :: _ => true
  | _ :: _, [] => false
  | a :: as, b :: bs => if a < b then true else if b < a then false else charListLt as bs

theorem charListLe_total : ∀ a b : List Char, charListLe a b = true ∨ charListLe b a = true
  | [], _ => Or.inl rfl
  | _ :: _, [] => Or.inr rfl
  | a :: as, b :: bs => by
    rcases lt_trichotomy a b with h | h | h
    · exact Or.inl (by simp [charListLe, h])
    · subst h
      rcases charListLe_total as bs with h' | h'
      · exact Or.inl (by simp [charListLe, lt_irrefl, h'])
      · exact Or.inr (by simp [charListLe, lt_irrefl, h'])
    · exact Or.inr (by simp [charListLe, h])

theorem charListLe_antisymm : ∀ {a b : List Char},
    charListLe a b = true → charListLe b a = true → a = b
  | [], [], _, _ => rfl
  | [], _ :: _, _, h => by simp [charListLe] at h
  | _ :: _, [], h, _ => by simp [charListLe] at h
  | a :: as, b :: bs, h1, h2 => by
    rcases lt_trichotomy a b with h | h | h
    · simp [charListLe, h, lt_asymm h] at h2
    · subst h
      simp only [charListLe, lt_irrefl, if_false] at h1 h2
      exact congrArg (a :: ·) (charListLe_antisymm h1 h2)
    · simp [charListLe, h, lt_asymm h] at h1

theorem charListLe_trans : ∀ {a b c : List Char},
    charListLe a b = true → charListLe b c = true → charListLe a c = true
  | [], _, _, _, _ => rfl
  | _ :: _, [], _, h, _ => by simp [charListLe] at h
  | _ :: _, _ :: _, [], _, h => by simp [charListLe] at h
  | a :: as, b :: bs, c :: cs, h1, h2 => by
    rcases lt_trichotomy a b with hab | hab | hab
    · rcases lt_trichotomy b c with hbc | hbc | hbc
      · simp [charListLe, hab.trans hbc]
      · subst hbc; simp [charListLe, hab]
      · simp [charListLe, hbc, lt_asymm hbc] at h2
    · subst hab
      rcases lt_trichotomy a c with hac | hac | hac
      · simp [charListLe, hac]
      · subst hac
        simp only [charListLe, lt_irrefl, if_false] at h1 h2 ⊢
        exact charListLe_trans h1 h2
      · simp [charListLe, hac, lt_asymm hac] at h2
    · simp [charListLe, hab, lt_asymm hab] at h1

theorem charListLt_eq_not_le : ∀ a b : List Char, charListLt a b = !charListLe b a
  | [], [] => rfl
  | [], _ :: _ => rfl
  | _ :: _, [] => rfl
  | a :: as, b :: bs => by
    rcases lt_trichotomy a b with h | h | h
    · simp [charListLt, charListLe, h, lt_asymm h]
    · subst h
      simp only [charListLt, charListLe, lt_irrefl, if_false]
      exact charListLt_eq_not_le as bs
    · simp [charListLt, charListLe, h, lt_asymm h]

/-- Ordering used by Python's `sorted` on `kwargs.items()`: tuples compare
lexicographically — by the keyword name first, by the value when the names
are equal. -/
def pairLeB (x y : String × String) : Bool :=
  if x.1 = y.1 then charListLe x.2.data y.2.data else charListLt x.1.data y.1.data

def pairLe (x y : String × String) : Prop := pairLeB x y = true

instance pairLe.decidable : DecidableRel pairLe := fun x y =>
  inferInstanceAs (Decidable (pairLeB x y = true))

theorem string_eq_of_data_eq {a b : String} (h : a.data = b.data) : a = b := by
  cases a
  cases b
  exact congrArg String.mk h

theorem charListLe_refl : ∀ a : List Char, charListLe a a = true
  | [] => rfl
  | a :: as => by simp [charListLe, lt_irrefl, charListLe_refl as]

theorem charListLe_of_not_le {a b : List Char} (h : ¬ charListLe a b = true) :
    charListLe b a = true :=
  (charListLe_total a b).resolve_left h

theorem charListLt_of_le_of_ne {a b : List Char} (h : charListLe a b = true)
    (hne : a ≠ b) : charListLt a b = true := by
  rw [charListLt_eq_not_le]
  by_cases h' : charListLe b a = true
  · exact absurd (charListLe_antisymm h h') hne
  · simp only [Bool.not_eq_true] at h' ⊢
    simp [h']

theorem charListLe_of_lt {a b : List Char} (h : charListLt a b = true) :
    charListLe a b = true := by
  rw [charListLt_eq_not_le, Bool.not_eq_true'] at h
  exact charListLe_of_not_le (by simp [h])

theorem charListLt_not_le {a b : List Char} (h : charListLt a b = true) :
    charListLe b a = false := by
  rwa [charListLt_eq_not_le, Bool.not_eq_true'] at h

theorem charListLt_trans' {a b c : List Char} (h1 : charListLt a b = true)
    (h2 : charListLt b c = true) : charListLt a c = true := by
  rw [charListLt_eq_not_le]
  by_cases h : charListLe c a = true
  · have : charListLe c b = true := charListLe_trans h (charListLe_of_lt h1)
    rw [charListLt_not_le h2] at this
    exact absurd this (by simp)
  · simp only [Bool.not_eq_true] at h
    simp [h]

theorem charListLt_irrefl (a : List Char) : charListLt a a = false := by
  rw [charListLt_eq_not_le, charListLe_refl]
  rfl

instance pairLe.total : IsTotal (String × String) pairLe := by
  constructor
  intro x y
  unfold pairLe pairLeB
  by_cases hk : x.1 = y.1
  · rcases charListLe_total x.2.data y.2.data with h | h
    · exact Or.inl (by simp [hk, h])
    · exact Or.inr (by simp [hk.symm, h])
  · have hd : x.1.data ≠ y.1.data := fun h => hk (string_eq_of_data_eq h)
    rcases charListLe_total x.1.data y.1.data with h | h
    · exact Or.inl (by rw [if_neg hk]; exact charListLt_of_le_of_ne h hd)
    · exact Or.inr (by
        rw [if_neg (fun hyx => hk hyx.symm)]
        exact charListLt_of_le_of_ne h (fun hh => hd hh.symm))

instance pairLe.trans : IsTrans (String × String) pairLe := by
  constructor
  intro x y z hxy hyz
  unfold pairLe pairLeB at hxy hyz ⊢
  by_cases h1 : x.1 = y.1 <;> by_cases h2 : y.1 = z.1
  · rw [if_pos h1] at hxy
    rw [if_pos h2] at hyz
    rw [if_pos (h1.trans h2)]
    exact charListLe_trans hxy hyz
  · rw [if_neg h2] at hyz
    rw [if_neg (fun h => h2 (h1.symm.trans h)), h1]
    exact hyz
  · rw [if_neg h1] at hxy
    rw [if_neg (fun h => h1 (h.trans h2.symm)), ← h2]
    exact hxy
  · rw [if_neg h1] at hxy
    rw [if_neg h2] at hyz
    have hxz : x.1 ≠ z.1 := by
      intro h
      rw [h] at hxy
      have := charListLt_trans' hxy hyz
      rw [charListLt_irrefl] at this
      exact absurd this (by simp)
    rw [if_neg hxz]
    exact charListLt_trans' hxy hyz

instance pairLe.antisymm : IsAntisymm (String × String) pairLe := by
  constructor
  intro x y hxy hyx
  unfold pairLe pairLeB at hxy hyx
  by_cases hk : x.1 = y.1
  · rw [if_pos hk] at hxy
    rw [if_pos hk.symm] at hyx
    exact Prod.ext hk (string_eq_of_data_eq (charListLe_antisymm hxy hyx))
  · rw [if_neg hk] at hxy
    rw [if_neg (fun h => hk h.symm)] at hyx
    have h1 := charListLt_not_le hxy
    have h2 := charListLe_of_lt hyx
    rw [h1] at h2
    exact absurd h2 (by simp)

/-- Python's `sorted(kwargs.items())` (dz3.py line 96). -/
def sortParams (ps : List (String × String)) : List (String × String) :=
  ps.insertionSort pairLe

/-- dz3.py lines 93-98, `get_cache_key`: builds
`"cache:{endpoint}"` and appends `":{k}={v}"` for each sorted keyword
argument.  Keyword values are passed as their `str()` rendering. -/
def get_cache_key (endpoint : String) (kwargs : List (String × String)) : String :=
  (sortParams kwargs).foldl (fun key kv => key ++ ":" ++ kv.1 ++ "=" ++ kv.2)
    ("cache:" ++ endpoint)

/-- Redis `get` as used by `get_cached_response` (dz3.py lines 100-105):
first binding of a key wins, matching Redis single-binding semantics. -/
def lookupCache : Cache → String → Option CVal
  | [], _ => none
  | (k, v) :: rest, key => if k = key then some v else lookupCache rest key

/-- Redis `setex` as used by `set_cached_response` (dz3.py lines 107-109):
overwrite-or-create.  The TTL argument is not modeled; every claim concerns
states within the 300-second TTL window. -/
def redis_setex (c : Cache) (k : String) (v : CVal) : Cache :=
  (k, v) :: c

/-- Redis glob matching for the patterns `invalidate_cache` builds, which are
all of the form `literal ++ "*"` with no other glob metacharacters: such a
pattern matches exactly the keys having the literal as a prefix. -/
def globStarMatch (pat key : String) : Bool :=
  pat.data.isPrefixOf key.data

/-- dz3.py lines 111-115, `invalidate_cache`: deletes every key matching
`f"cache:{endpoint_prefix}:*"`. -/
def invalidate_cache (c : Cache) ( endpoint_prefix : String) : Cache :=
  c.filter (fun kv => !(globStarMatch ("cache:" ++ endpoint_prefix ++ ":") kv.1))

/-- The server's observable state: the `students` table, the Redis keyspace,
and an instrumentation counter of Record-Store read queries (the
"store-call counter" the spec's testable properties refer to; it is
incremented exactly where a handler queries the `students` table and has no
influence on any other field). -/
structure ServerState where
  store : List StudentRec
  cache : Cache
  reads : Nat
deriving DecidableEq, Repr

/-- Python slice index normalization: for `lst[a:b]` an index `< 0` counts
from the end (clamped at 0), an index `≥ 0` is clamped at `len(lst)`. -/
def sliceIdx (n : Nat) (i : Int) : Nat :=
  if i < 0 then n - (-i).toNat else min i.toNat n

/-- Python `lst[a : b]` on a list of students. -/
def pySlice (l : List StudentRec) (a b : Int) : List StudentRec :=
  (l.take (sliceIdx l.length b)).drop (sliceIdx l.length a)

/-- Method `delete_students_by_ids` of `StudentDatabase` (dz3.py lines 168-177): deletes
every row whose id is in the list; returns immediately when the list is
empty. -/
def delete_students_by_ids (store : List StudentRec) (student_ids : List Int) :
    List StudentRec :=
  if student_ids.isEmpty then store
  else store.filter (fun st => !(student_ids.contains st.id))

/-- Applying `StudentUpdate` fields to a row: `setattr` for each field in
`student_data.dict(exclude_unset=True)` (dz3.py lines 139-145). -/
def applyUpdate (st : StudentRec) (d : StudentUpdate) : StudentRec :=
  { st with
    surname := d.surname.getD st.surname
    name := d.name.getD st.name
    faculty := d.faculty.getD st.faculty
    course := d.course.getD st.course
    grade := d.grade.getD st.grade }

/-- Autoincrement of the `students` primary key. -/
def nextId (store : List StudentRec) : Int :=
  (store.foldl (fun m st => max m st.id) 0) + 1

/-- dz3.py lines 279-292, `background_load_csv`.  The inner call
`StudentDatabase(db).load_from_csv(file_path)` does file I/O and may raise
(missing file, malformed row, bad integer); its outcome is passed in as
`mutation` — either the resulting `students` table or an exception.  On
success the three prefixes are invalidated; the `except` branch only
prints. -/
def background_load_csv (mutation : Except Unit (List StudentRec))
    (s : ServerState) : ServerState :=
  match mutation with
  | .ok store' =>
    { s with
      store := store'
      cache :=
        invalidate_cache
          (invalidate_cache (invalidate_cache s.cache "students") "faculties")
          "courses" }
  | .error _ => s

/-- dz3.py lines 294-306, `background_delete_students`.  `dbFails` models the
possibility that the underlying commit raises; the `except` branch only
prints.  On success the `students` and `faculties` prefixes are
invalidated. -/
def background_delete_students (student_ids : List Int) (dbFails : Bool)
    (s : ServerState) : ServerState :=
  if dbFails then s
  else
    { s with
      store := delete_students_by_ids s.store student_ids
      cache := invalidate_cache (invalidate_cache s.cache "students") "faculties" }

/-- dz3.py lines 342-354, `POST /students/load-csv`: 404 when the file does
not exist, otherwise the task is enqueued and the "started" response is
returned immediately — the state at response time is unchanged; the enqueued
task runs `background_load_csv` afterwards. -/
def load_csv_from_file (fileExists : Bool) (s : ServerState) :
    Except PyErr String × ServerState :=
  if fileExists then (.ok "CSV import started in background", s)
  else (.error (.http 404), s)

/-- dz3.py lines 356-368, `DELETE /students/bulk-delete`: 400 on an empty id
list, otherwise the task is enqueued and the "started" response returned with
the state unchanged; the enqueued task runs `background_delete_students`
afterwards. -/
def delete_students_bulk (student_ids : List Int) (s : ServerState) :
    Except PyErr String × ServerState :=
  if student_ids.isEmpty then (.error (.http 400), s)
  else (.ok "Student deletion started in background", s)

/-- dz3.py lines 371-383, `POST /students/` (after authentication): inserts
the row, then invalidates the `students` and `faculties` prefixes, then
returns the created row. -/
def create_student (student : StudentCreate) (s : ServerState) :
    CVal × ServerState :=
  let st : StudentRec :=
    ⟨nextId s.store, student.surname, student.name, student.faculty,
      student.course, student.grade⟩
  (CVal.vStudent st,
   { s with
     store := s.store ++ [st]
     cache := invalidate_cache (invalidate_cache s.cache "students") "faculties" })

/-- dz3.py lines 385-407, `GET /students/` (after authentication): cache
lookup on `get_cache_key("students", skip=skip, limit=limit)`; on a hit the
cached payload is returned as is; on a miss the store is read
(`get_all_students`, counted in `reads`), sliced `[skip : skip + limit]`,
cached and returned. -/
def read_all_students (skip limit : Int) (s : ServerState) :
    CVal × ServerState :=
  let cache_key :=
    get_cache_key "students" [("skip", toString skip), ("limit", toString limit)]
  match lookupCache s.cache cache_key with
  | some cached => (cached, s)
  | none =>
    let result := pySlice s.store skip (skip + limit)
    (CVal.vStudents result,
     { s with
       reads := s.reads + 1
       cache := redis_setex s.cache cache_key (CVal.vStudents result) })

/-- dz3.py lines 409-425, `GET /students/{student_id}` (after
authentication): cache lookup on `get_cache_key("student",
student_id=student_id)`; on a miss, `get_student` queries the store (counted
in `reads`) and raises 404 when the row is absent, otherwise the row is
cached and returned. -/
def read_student (student_id : Int) (s : ServerState) :
    Except PyErr CVal × ServerState :=
  let cache_key := get_cache_key "student" [("student_id", toString student_id)]
  match lookupCache s.cache cache_key with
  | some cached => (.ok cached, s)
  | none =>
    match s.store.find? (fun st => st.id == student_id) with
    | none => (.error (.http 404), { s with reads := s.reads + 1 })
    | some st =>
      (.ok (CVal.vStudent st),
       { s with
         reads := s.reads + 1
         cache := redis_setex s.cache cache_key (CVal.vStudent st) })

/-- dz3.py lines 427-441, `PUT /students/{student_id}` (after
authentication): `StudentDatabase.update_student` raises 404 when the id is
unknown; otherwise the row is updated, `invalidate_cache("students")` runs,
and then the source calls `invalidate_cache("student",
student_id=student_id)` (line 438) — but `invalidate_cache` (line 111)
accepts only the positional `endpoint_prefix`, so in Python this call raises
`TypeError: invalidate_cache() got an unexpected keyword argument` before
touching the cache; `invalidate_cache("faculties")` and the return are never
reached. -/
def update_student_route (student_id : Int) (student_data : StudentUpdate)
    (s : ServerState) : Except PyErr CVal × ServerState :=
  match s.store.find? (fun st => st.id == student_id) with
  | none => (.error (.http 404), s)
  | some _ =>
    let store' :=
      s.store.map (fun st => if st.id == student_id then applyUpdate st student_data else st)
    let s1 := { s with store := store', cache := invalidate_cache s.cache "students" }
    (.error .typeError, s1)

/-- dz3.py lines 443-456, `DELETE /students/{student_id}` (after
authentication): `StudentDatabase.delete_student` raises 404 when the id is
unknown; otherwise the row is deleted, `invalidate_cache("students")` runs,
and the call `invalidate_cache("student", student_id=student_id)` (line 453)
raises `TypeError` exactly as in the update route. -/
def delete_student_route (student_id : Int) (s : ServerState) :
    Except PyErr CVal × ServerState :=
  match s.store.find? (fun st => st.id == student_id) with
  | none => (.error (.http 404), s)
  | some _ =>
    let store' := s.store.filter (fun st => !(st.id == student_id))
    let s1 := { s with store := store', cache := invalidate_cache s.cache "students" }
    (.error .typeError, s1)

/-- dz3.py lines 85-87, `hash_password`. -/
def hash_password (password : String) : String :=
  password ++ "_hashed"

/-- dz3.py lines 89-90, `verify_password`. -/
def verify_password (plain_password hashed_password : String) : Bool :=
  hash_password plain_password == hashed_password

/-- dz3.py lines 213-229, `StudentDatabase.login_user`: finds the user by
username, raises 401 on unknown username or wrong password; on success stores
the freshly generated token (`secrets.token_urlsafe(32)`, passed in as
`newToken`) and sets `token_expiry` to
`int((datetime.now() + timedelta(days=1)).timestamp())`, i.e. `now + 86400`
seconds.  Returns the updated user row and the updated table. -/
def login_user (users : List UserRec) (now : Int) (newToken : String)
    (username password : String) : Except Nat (UserRec × List UserRec) :=
  match users.find? (fun u => u.username == username) with
  | none => .error 401
  | some u =>
    if verify_password password u.password then
      let u' := { u with session_token := some newToken,
                         token_expiry := some (now + 86400) }
      .ok (u', users.map (fun v => if v.id == u.id then u' else v))
    else .error 401

/-- dz3.py lines 243-257, `StudentDatabase.get_current_user`: returns `none`
on a falsy token (empty string models Python's `if not session_token`);
otherwise looks the token up.  When a user is found and its `token_expiry` is
truthy (present and non-zero) and `now > expiry`, the token and expiry are
cleared (lazy purge) and `none` is returned; otherwise the found user (or
`none`) is returned.  Returns the result together with the updated table. -/
def db_get_current_user (users : List UserRec) (now : Int)
    (session_token : String) : Option UserRec × List UserRec :=
  if session_token = "" then (none, users)
  else
    match users.find? (fun u => u.session_token == some session_token) with
    | none => (none, users)
    | some user =>
      match user.token_expiry with
      | some e =>
        if e ≠ 0 ∧ now > e then
          (none,
           users.map (fun v =>
             if v.id == user.id then
               { v with session_token := none, token_expiry := none }
             else v))
        else (some user, users)
      | none => (some user, users)

/-! ### Cache-layer lemmas -/

/-- No entry of the cache lies under the given endpoint prefix. -/
def noKeys (c : Cache) (p : String) : Prop :=
  ∀ kv ∈ c, globStarMatch ("cache:" ++ p ++ ":") kv.1 = false

theorem mem_invalidate_cache {c : Cache} {p : String} {kv : String × CVal} :
    kv ∈ invalidate_cache c p ↔
      kv ∈ c ∧ globStarMatch ("cache:" ++ p ++ ":") kv.1 = false := by
  unfold invalidate_cache
  rw [List.mem_filter]
  simp [Bool.not_eq_true']

theorem lookup_invalidate_cache (c : Cache) (p k : String) :
    lookupCache (invalidate_cache c p) k =
      if globStarMatch ("cache:" ++ p ++ ":") k then none else lookupCache c k := by
  induction c with
  | nil => cases h : globStarMatch ("cache:" ++ p ++ ":") k <;> simp [invalidate_cache, lookupCache, h]
  | cons kv rest ih =>
    obtain ⟨k0, v0⟩ := kv
    unfold invalidate_cache at ih ⊢
    rw [List.filter_cons]
    by_cases hk : k0 = k
    · subst hk
      by_cases hm : globStarMatch ("cache:" ++ p ++ ":") k0 = true
      · rw [if_neg (by simp [hm]), ih, if_pos hm, if_pos hm]
      · simp only [Bool.not_eq_true] at hm
        rw [if_pos (by simp [hm]), lookupCache, if_pos rfl, if_neg (by simp [hm]),
          lookupCache, if_pos rfl]
    · by_cases hm : globStarMatch ("cache:" ++ p ++ ":") k0 = true
      · rw [if_neg (by simp [hm]), ih]
        by_cases hg : globStarMatch ("cache:" ++ p ++ ":") k = true
        · rw [if_pos hg, if_pos hg]
        · rw [if_neg hg, if_neg hg, lookupCache, if_neg hk]
      · simp only [Bool.not_eq_true] at hm
        rw [if_pos (by simp [hm]), lookupCache, if_neg hk, ih]
        by_cases hg : globStarMatch ("cache:" ++ p ++ ":") k = true
        · rw [if_pos hg, if_pos hg]
        · rw [if_neg hg, if_neg hg, lookupCache, if_neg hk]

theorem noKeys_invalidate_self (c : Cache) (p : String) :
    noKeys (invalidate_cache c p) p := by
  intro kv hv
  exact (mem_invalidate_cache.mp hv).2

theorem noKeys_invalidate_of_noKeys {c : Cache} {p : String} (q : String)
    (h : noKeys c p) : noKeys (invalidate_cache c q) p := by
  intro kv hv
  exact h kv (mem_invalidate_cache.mp hv).1

theorem mem_of_lookup_eq_some {c : Cache} {k : String} {v : CVal} :
    lookupCache c k = some v → (k, v) ∈ c := by
  induction c with
  | nil => intro h; simp [lookupCache] at h
  | cons kv rest ih =>
    obtain ⟨k0, v0⟩ := kv
    intro h
    by_cases hk : k0 = k
    · subst hk
      rw [lookupCache, if_pos rfl] at h
      cases h
      exact List.mem_cons_self _ _
    · rw [lookupCache, if_neg hk] at h
      exact List.mem_cons_of_mem _ (ih h)

theorem lookup_eq_none_of_noKeys {c : Cache} {p k : String}
    (hn : noKeys c p) (hm : globStarMatch ("cache:" ++ p ++ ":") k = true) :
    lookupCache c k = none := by
  cases h : lookupCache c k with
  | none => rfl
  | some v =>
    have := hn (k, v) (mem_of_lookup_eq_some h)
    rw [hm] at this
    cases this

theorem lookup_setex_self (c : Cache) (k : String) (v : CVal) :
    lookupCache (redis_setex c k v) k = some v := by
  simp [redis_setex, lookupCache]

/-- The key of the `GET /students/` list route lies under the `students`
prefix, whatever the rendered `skip` and `limit` values are. -/
theorem students_list_key_matches (a b : String) :
    globStarMatch "cache:students:"
      (get_cache_key "students" [("skip", a), ("limit", b)]) = true := rfl

/-! ### Claim theorems -/

/-- The format described by the spec for cache keys: `":{k}={v}"` segments
in sorted order, joined after `"cache:{endpoint}"`. -/
def joinParams : List (String × String) → String
  | [] => ""
  | kv :: rest => ":" ++ kv.1 ++ "=" ++ kv.2 ++ joinParams rest

theorem string_append_assoc (a b c : String) : a ++ b ++ c = a ++ (b ++ c) := by
  apply string_eq_of_data_eq
  simp [String.data_append, List.append_assoc]

theorem foldl_key_append (l : List (String × String)) :
    ∀ init : String,
      l.foldl (fun key kv => key ++ ":" ++ kv.1 ++ "=" ++ kv.2) init
        = init ++ joinParams l := by
  induction l with
  | nil =>
    intro init
    apply string_eq_of_data_eq
    simp [joinParams, String.data_append]
  | cons kv rest ih =>
    intro init
    rw [List.foldl_cons, ih]
    apply string_eq_of_data_eq
    simp [joinParams, String.data_append, List.append_assoc]

/-- C6.  `get_cache_key` is a pure function producing
`"cache:" ++ endpoint` followed by `":k=v"` segments in sorted parameter
order; therefore two keyword-argument lists that are permutations of each
other (the same set of key/value pairs in any insertion order) yield the
same key, and in particular the `skip`/`limit` example keys coincide. -/
theorem C6_cache_key_deterministic :
    (∀ (endpoint : String) (ps : List (String × String)),
        get_cache_key endpoint ps = "cache:" ++ endpoint ++ joinParams (sortParams ps))
    ∧ (∀ (endpoint : String) (p q : List (String × String)),
        p.Perm q → get_cache_key endpoint p = get_cache_key endpoint q)
    ∧ get_cache_key "students" [("limit", "10"), ("skip", "0")]
        = get_cache_key "students" [("skip", "0"), ("limit", "10")] := by
  refine ⟨?_, ?_, by decide⟩
  · intro endpoint ps
    exact foldl_key_append (sortParams ps) ("cache:" ++ endpoint)
  · intro endpoint p q hperm
    unfold get_cache_key sortParams
    congr 1
    exact List.eq_of_perm_of_sorted
      ((List.perm_insertionSort pairLe p).trans
        (hperm.trans (List.perm_insertionSort pairLe q).symm))
      (List.sorted_insertionSort pairLe p)
      (List.sorted_insertionSort pairLe q)

/-- Witness for C6 at a concrete permutation. -/
theorem C6_witness :
    ([("skip", "0"), ("limit", "10")] : List (String × String)).Perm
        [("limit", "10"), ("skip", "0")]
    ∧ get_cache_key "students" [("skip", "0"), ("limit", "10")]
        = get_cache_key "students" [("limit", "10"), ("skip", "0")] :=
  ⟨by decide,
   C6_cache_key_deterministic.2.1 "students" [("skip", "0"), ("limit", "10")]
     [("limit", "10"), ("skip", "0")] (by decide)⟩

/-- C9.  `invalidate_cache prefix` deletes exactly the entries whose key
matches `"cache:" ++ prefix ++ ":*"` and leaves every other entry (both its
presence and its looked-up value) unchanged; in particular per-id entries
under `cache:student:...` survive invalidation of the `students` prefix and
vice versa. -/
theorem C9_invalidate_frame :
    (∀ (c : Cache) (p : String) (kv : String × CVal),
        kv ∈ invalidate_cache c p ↔
          kv ∈ c ∧ globStarMatch ("cache:" ++ p ++ ":") kv.1 = false)
    ∧ (∀ (c : Cache) (p k : String),
        lookupCache (invalidate_cache c p) k =
          if globStarMatch ("cache:" ++ p ++ ":") k then none else lookupCache c k)
    ∧ (∀ rest : String,
        globStarMatch "cache:students:" ("cache:student:" ++ rest) = false
        ∧ globStarMatch "cache:student:" ("cache:students:" ++ rest) = false) :=
  ⟨fun _ _ _ => mem_invalidate_cache,
   lookup_invalidate_cache,
   fun _ => ⟨rfl, rfl⟩⟩

/-- C1, counterexample.  A background CSV import whose Record-Store mutation
raises leaves the state — cache included — exactly as it was: the declared
invalidation set is never invoked (a pre-existing `students`-prefix entry
survives task completion), refuting "completion always triggers its
associated invalidation set regardless of success/failure". -/
theorem C1_counterexample :
    background_load_csv (.error ())
        ⟨[], [("cache:students:limit=100:skip=0", CVal.vStudents [])], 0⟩
      = ⟨[], [("cache:students:limit=100:skip=0", CVal.vStudents [])], 0⟩
    ∧ lookupCache
        (background_load_csv (.error ())
          ⟨[], [("cache:students:limit=100:skip=0", CVal.vStudents [])], 0⟩).cache
        "cache:students:limit=100:skip=0" = some (CVal.vStudents []) := by
  exact ⟨rfl, rfl⟩

/-- C1, amended.  When a background task's Record-Store mutation succeeds,
completion invokes the task's declared cache-prefix invalidation set
(`students`/`faculties`/`courses` for import, `students`/`faculties` for bulk
delete), leaving no entry under those prefixes; when the mutation raises, the
`except` branch only logs and no invalidation at all is performed — the state
is returned untouched. -/
theorem C1_amended_background_invalidation (s : ServerState) :
    (∀ store' : List StudentRec,
        (background_load_csv (.ok store') s).store = store'
        ∧ noKeys (background_load_csv (.ok store') s).cache "students"
        ∧ noKeys (background_load_csv (.ok store') s).cache "faculties"
        ∧ noKeys (background_load_csv (.ok store') s).cache "courses")
    ∧ background_load_csv (.error ()) s = s
    ∧ (∀ student_ids : List Int,
        (background_delete_students student_ids false s).store
            = delete_students_by_ids s.store student_ids
        ∧ noKeys (background_delete_students student_ids false s).cache "students"
        ∧ noKeys (background_delete_students student_ids false s).cache "faculties")
    ∧ (∀ student_ids : List Int, background_delete_students student_ids true s = s) := by
  refine ⟨fun store' => ⟨rfl, ?_, ?_, ?_⟩, rfl, fun ids => ⟨rfl, ?_, ?_⟩, fun _ => rfl⟩
  · exact noKeys_invalidate_of_noKeys _
      (noKeys_invalidate_of_noKeys _ (noKeys_invalidate_self s.cache "students"))
  · exact noKeys_invalidate_of_noKeys _ (noKeys_invalidate_self _ "faculties")
  · exact noKeys_invalidate_self _ "courses"
  · exact noKeys_invalidate_of_noKeys _ (noKeys_invalidate_self s.cache "students")
  · exact noKeys_invalidate_self _ "faculties"

/-- C2, counterexample.  In a state where students 1, 2, 3 exist and student
1 is cached under its per-id key `cache:student:student_id=1`, the completed
bulk-delete task for `[1,2,3]` does not invalidate the `student` prefix, so
`GET /students/1` answers from the cache with 200 and the stale record —
not 404. -/
theorem C2_counterexample :
    (read_student 1
        (background_delete_students [1, 2, 3] false
          ⟨[⟨1, "A", "B", "F", "K", 5⟩, ⟨2, "C", "D", "F", "K", 4⟩,
            ⟨3, "E", "G", "F", "K", 3⟩],
           [("cache:student:student_id=1", CVal.vStudent ⟨1, "A", "B", "F", "K", 5⟩)],
           0⟩)).1
      = .ok (CVal.vStudent ⟨1, "A", "B", "F", "K", 5⟩)
    ∧ (read_student 1
        (background_delete_students [1, 2, 3] false
          ⟨[⟨1, "A", "B", "F", "K", 5⟩, ⟨2, "C", "D", "F", "K", 4⟩,
            ⟨3, "E", "G", "F", "K", 3⟩],
           [("cache:student:student_id=1", CVal.vStudent ⟨1, "A", "B", "F", "K", 5⟩)],
           0⟩)).1
      ≠ .error (.http 404) := by
  refine ⟨rfl, ?_⟩
  intro h
  exact Except.noConfusion h

/-- C2, amended.  In every state where students 1, 2 and 3 exist and the
per-id `student` cache entry for id 1 is absent (the bulk-delete task never
invalidates that namespace), after the bulk-delete background task for
`[1,2,3]` completes, `GET /students/1` returns 404, and no cache entry
remains under the `students` or `faculties` prefixes. -/
theorem C2_amended_bulk_delete (s : ServerState)
    (h1 : ∃ st ∈ s.store, st.id = 1) (h2 : ∃ st ∈ s.store, st.id = 2)
    (h3 : ∃ st ∈ s.store, st.id = 3)
    (hcache : lookupCache s.cache
      (get_cache_key "student" [("student_id", toString (1 : Int))]) = none) :
    (read_student 1 (background_delete_students [1, 2, 3] false s)).1
        = .error (.http 404)
    ∧ noKeys (background_delete_students [1, 2, 3] false s).cache "students"
    ∧ noKeys (background_delete_students [1, 2, 3] false s).cache "faculties" := by
  have hstate : background_delete_students [1, 2, 3] false s
      = { s with
          store := s.store.filter (fun st => !([1, 2, 3] : List Int).contains st.id)
          cache := invalidate_cache (invalidate_cache s.cache "students") "faculties" } := rfl
  refine ⟨?_, ?_, ?_⟩
  · rw [hstate]
    have hlook : lookupCache
        (invalidate_cache (invalidate_cache s.cache "students") "faculties")
        (get_cache_key "student" [("student_id", toString (1 : Int))]) = none := by
      rw [lookup_invalidate_cache]
      rw [if_neg (by decide), lookup_invalidate_cache, if_neg (by decide)]
      exact hcache
    have hfind : (s.store.filter
        (fun st => !([1, 2, 3] : List Int).contains st.id)).find?
          (fun st => st.id == (1 : Int)) = none := by
      rw [List.find?_eq_none]
      intro st hst
      have hcontains := (List.mem_filter.mp hst).2
      rw [Bool.not_eq_true'] at hcontains
      simp only [beq_iff_eq]
      intro hid
      rw [hid] at hcontains
      exact absurd hcontains (by decide)
    simp only [read_student, hlook, hfind]
  · rw [hstate]
    exact noKeys_invalidate_of_noKeys _ (noKeys_invalidate_self s.cache "students")
  · rw [hstate]
    exact noKeys_invalidate_self _ "faculties"

/-- Witness for C2 (amended) at a concrete state. -/
theorem C2_witness :
    (∃ st ∈ ([⟨1, "A", "B", "F", "K", 5⟩, ⟨2, "C", "D", "F", "K", 4⟩,
        ⟨3, "E", "G", "F", "K", 3⟩] : List StudentRec), st.id = 1)
    ∧ (read_student 1 (background_delete_students [1, 2, 3] false
        ⟨[⟨1, "A", "B", "F", "K", 5⟩, ⟨2, "C", "D", "F", "K", 4⟩,
          ⟨3, "E", "G", "F", "K", 3⟩], [], 0⟩)).1 = .error (.http 404) :=
  ⟨⟨⟨1, "A", "B", "F", "K", 5⟩, by decide⟩,
   (C2_amended_bulk_delete
      ⟨[⟨1, "A", "B", "F", "K", 5⟩, ⟨2, "C", "D", "F", "K", 4⟩,
        ⟨3, "E", "G", "F", "K", 3⟩], [], 0⟩
      ⟨⟨1, "A", "B", "F", "K", 5⟩, by decide⟩
      ⟨⟨2, "C", "D", "F", "K", 4⟩, by decide⟩
      ⟨⟨3, "E", "G", "F", "K", 3⟩, by decide⟩
      rfl).1⟩

/-- C3, counterexample.  `POST /students/load-csv` is a POST on a route
under `/students`, yet once its "started" response is returned the cache
entry for the `GET /students/` list key is still present — invalidation is
deferred to the background task, which runs only after the response. -/
theorem C3_counterexample :
    (load_csv_from_file true
        ⟨[], [(get_cache_key "students"
            [("skip", toString (0 : Int)), ("limit", toString (100 : Int))],
          CVal.vStudents [])], 0⟩).1
      = .ok "CSV import started in background"
    ∧ lookupCache
        (load_csv_from_file true
          ⟨[], [(get_cache_key "students"
              [("skip", toString (0 : Int)), ("limit", toString (100 : Int))],
            CVal.vStudents [])], 0⟩).2.cache
        (get_cache_key "students"
          [("skip", toString (0 : Int)), ("limit", toString (100 : Int))])
      = some (CVal.vStudents []) := ⟨rfl, by decide⟩

/-- C3, amended.  For the synchronous mutation routes — create, and
update/delete on an existing id — no entry under the `students` prefix
survives to the moment the response is returned, so a next `GET /students/`
(any `skip`/`limit`) misses the cache and reads the Record Store.  The two
bulk routes return their "started" response with the state untouched;
their `students`-prefix invalidation happens only when the enqueued
background task later completes successfully. -/
theorem C3_amended_invalidation_completeness :
    (∀ (stc : StudentCreate) (s : ServerState),
        noKeys (create_student stc s).2.cache "students")
    ∧ (∀ (i : Int) (d : StudentUpdate) (s : ServerState) (st : StudentRec),
        st ∈ s.store → st.id = i →
        noKeys (update_student_route i d s).2.cache "students")
    ∧ (∀ (i : Int) (s : ServerState) (st : StudentRec),
        st ∈ s.store → st.id = i →
        noKeys (delete_student_route i s).2.cache "students")
    ∧ (∀ (fileExists : Bool) (s : ServerState), (load_csv_from_file fileExists s).2 = s)
    ∧ (∀ (ids : List Int) (s : ServerState), (delete_students_bulk ids s).2 = s)
    ∧ (∀ (store' : List StudentRec) (s : ServerState),
        noKeys (background_load_csv (.ok store') s).cache "students")
    ∧ (∀ (ids : List Int) (s : ServerState),
        noKeys (background_delete_students ids false s).cache "students")
    ∧ (∀ (skip limit : Int) (c : Cache), noKeys c "students" →
        lookupCache c (get_cache_key "students"
          [("skip", toString skip), ("limit", toString limit)]) = none)
    ∧ (∀ (skip limit : Int) (s : ServerState),
        lookupCache s.cache (get_cache_key "students"
          [("skip", toString skip), ("limit", toString limit)]) = none →
        (read_all_students skip limit s).2.reads = s.reads + 1) := by
  refine ⟨?_, ?_, ?_, ?_, ?_, ?_, ?_, ?_, ?_⟩
  · intro stc s
    exact noKeys_invalidate_of_noKeys _ (noKeys_invalidate_self s.cache "students")
  · intro i d s st hmem hid
    cases hf : s.store.find? (fun st => st.id == i) with
    | none =>
      have := List.find?_eq_none.mp hf st hmem
      rw [hid] at this
      exact absurd (beq_self_eq_true i) this
    | some st' =>
      simp only [update_student_route, hf]
      exact noKeys_invalidate_self s.cache "students"
  · intro i s st hmem hid
    cases hf : s.store.find? (fun st => st.id == i) with
    | none =>
      have := List.find?_eq_none.mp hf st hmem
      rw [hid] at this
      exact absurd (beq_self_eq_true i) this
    | some st' =>
      simp only [delete_student_route, hf]
      exact noKeys_invalidate_self s.cache "students"
  · intro fileExists s
    cases fileExists <;> rfl
  · intro ids s
    cases h : ids.isEmpty <;> simp [delete_students_bulk, h]
  · intro store' s
    exact noKeys_invalidate_of_noKeys _
      (noKeys_invalidate_of_noKeys _ (noKeys_invalidate_self s.cache "students"))
  · intro ids s
    exact noKeys_invalidate_of_noKeys _ (noKeys_invalidate_self s.cache "students")
  · intro skip limit c hn
    exact lookup_eq_none_of_noKeys hn
      (students_list_key_matches (toString skip) (toString limit))
  · intro skip limit s hmiss
    simp only [read_all_students, hmiss]

/-- Witness for C3 (amended): the update branch at a concrete state. -/
theorem C3_witness :
    (⟨1, "A", "B", "F", "K", 5⟩ : StudentRec)
        ∈ ([⟨1, "A", "B", "F", "K", 5⟩] : List StudentRec)
    ∧ (⟨1, "A", "B", "F", "K", 5⟩ : StudentRec).id = 1
    ∧ noKeys (update_student_route 1 ⟨none, none, none, none, some 4⟩
        ⟨[⟨1, "A", "B", "F", "K", 5⟩],
         [("cache:students:limit=100:skip=0", CVal.vStudents [])], 0⟩).2.cache
        "students" :=
  ⟨List.mem_cons_self _ _, rfl,
   C3_amended_invalidation_completeness.2.1 1 ⟨none, none, none, none, some 4⟩
     ⟨[⟨1, "A", "B", "F", "K", 5⟩],
      [("cache:students:limit=100:skip=0", CVal.vStudents [])], 0⟩
     ⟨1, "A", "B", "F", "K", 5⟩ (List.mem_cons_self _ _) rfl⟩

/-- C4.  The source intends `PUT/DELETE /students/{id}` to clear the
`students`, per-id `student` and `faculties` prefixes and return the
updated record, but the calls `invalidate_cache("student",
student_id=student_id)` (dz3.py lines 438 and 453) pass a keyword argument
to a function declared with only the positional `endpoint_prefix`
(line 111): Python raises `TypeError` there.  Evaluated at a concrete state
holding student 1 and one cache entry under each prefix: the request dies
with the `TypeError` after clearing only the `students` prefix — the per-id
and `faculties` entries survive and no updated record is returned. -/
theorem C4_update_route_type_error :
    (update_student_route 1 ⟨none, none, none, none, some 4⟩
        ⟨[⟨1, "A", "B", "F", "K", 5⟩],
         [("cache:students:limit=100:skip=0", CVal.vStudents [⟨1, "A", "B", "F", "K", 5⟩]),
          ("cache:student:student_id=1", CVal.vStudent ⟨1, "A", "B", "F", "K", 5⟩),
          ("cache:faculties:f=F", CVal.vStudents [⟨1, "A", "B", "F", "K", 5⟩])], 0⟩).1
      = .error .typeError
    ∧ lookupCache (update_student_route 1 ⟨none, none, none, none, some 4⟩
        ⟨[⟨1, "A", "B", "F", "K", 5⟩],
         [("cache:students:limit=100:skip=0", CVal.vStudents [⟨1, "A", "B", "F", "K", 5⟩]),
          ("cache:student:student_id=1", CVal.vStudent ⟨1, "A", "B", "F", "K", 5⟩),
          ("cache:faculties:f=F", CVal.vStudents [⟨1, "A", "B", "F", "K", 5⟩])], 0⟩).2.cache
        "cache:students:limit=100:skip=0" = none
    ∧ lookupCache (update_student_route 1 ⟨none, none, none, none, some 4⟩
        ⟨[⟨1, "A", "B", "F", "K", 5⟩],
         [("cache:students:limit=100:skip=0", CVal.vStudents [⟨1, "A", "B", "F", "K", 5⟩]),
          ("cache:student:student_id=1", CVal.vStudent ⟨1, "A", "B", "F", "K", 5⟩),
          ("cache:faculties:f=F", CVal.vStudents [⟨1, "A", "B", "F", "K", 5⟩])], 0⟩).2.cache
        "cache:student:student_id=1" = some (CVal.vStudent ⟨1, "A", "B", "F", "K", 5⟩)
    ∧ lookupCache (update_student_route 1 ⟨none, none, none, none, some 4⟩
        ⟨[⟨1, "A", "B", "F", "K", 5⟩],
         [("cache:students:limit=100:skip=0", CVal.vStudents [⟨1, "A", "B", "F", "K", 5⟩]),
          ("cache:student:student_id=1", CVal.vStudent ⟨1, "A", "B", "F", "K", 5⟩),
          ("cache:faculties:f=F", CVal.vStudents [⟨1, "A", "B", "F", "K", 5⟩])], 0⟩).2.cache
        "cache:faculties:f=F" = some (CVal.vStudents [⟨1, "A", "B", "F", "K", 5⟩])
    ∧ (delete_student_route 1
        ⟨[⟨1, "A", "B", "F", "K", 5⟩],
         [("cache:student:student_id=1", CVal.vStudent ⟨1, "A", "B", "F", "K", 5⟩)], 0⟩).1
      = .error .typeError := by
  exact ⟨rfl, by decide, by decide, by decide, rfl⟩

/-- C5.  First authenticated `GET /students/` with given `skip`/`limit` on a
cold key reads the Record Store (the read counter increases), leaves the
store unchanged, and populates the cache with the response payload; a second
identical call with no intervening mutation returns the same payload from
the cache without another store read (the state, counter included, is
unchanged). -/
theorem C5_read_through (s : ServerState) (skip limit : Int)
    (hmiss : lookupCache s.cache (get_cache_key "students"
      [("skip", toString skip), ("limit", toString limit)]) = none) :
    (read_all_students skip limit s).1
        = CVal.vStudents (pySlice s.store skip (skip + limit))
    ∧ (read_all_students skip limit s).2.reads = s.reads + 1
    ∧ (read_all_students skip limit s).2.store = s.store
    ∧ lookupCache (read_all_students skip limit s).2.cache
        (get_cache_key "students" [("skip", toString skip), ("limit", toString limit)])
        = some ((read_all_students skip limit s).1)
    ∧ read_all_students skip limit ((read_all_students skip limit s).2)
        = ((read_all_students skip limit s).1, (read_all_students skip limit s).2) := by
  have h1 : read_all_students skip limit s
      = (CVal.vStudents (pySlice s.store skip (skip + limit)),
         { s with
           reads := s.reads + 1
           cache := redis_setex s.cache
             (get_cache_key "students" [("skip", toString skip), ("limit", toString limit)])
             (CVal.vStudents (pySlice s.store skip (skip + limit))) }) := by
    simp only [read_all_students, hmiss]
  rw [h1]
  refine ⟨rfl, rfl, rfl, lookup_setex_self _ _ _, ?_⟩
  simp only [read_all_students, lookup_setex_self]

/-- Witness for C5 at a concrete cold state. -/
theorem C5_witness :
    lookupCache (⟨[⟨1, "A", "B", "F", "K", 5⟩], [], 0⟩ : ServerState).cache
        (get_cache_key "students"
          [("skip", toString (0 : Int)), ("limit", toString (100 : Int))]) = none
    ∧ ((read_all_students 0 100 ⟨[⟨1, "A", "B", "F", "K", 5⟩], [], 0⟩).1
        = CVal.vStudents (pySlice [⟨1, "A", "B", "F", "K", 5⟩] 0 (0 + 100))
      ∧ (read_all_students 0 100 ⟨[⟨1, "A", "B", "F", "K", 5⟩], [], 0⟩).2.reads = 0 + 1
      ∧ (read_all_students 0 100 ⟨[⟨1, "A", "B", "F", "K", 5⟩], [], 0⟩).2.store
          = [⟨1, "A", "B", "F", "K", 5⟩]
      ∧ lookupCache (read_all_students 0 100 ⟨[⟨1, "A", "B", "F", "K", 5⟩], [], 0⟩).2.cache
          (get_cache_key "students"
            [("skip", toString (0 : Int)), ("limit", toString (100 : Int))])
          = some ((read_all_students 0 100 ⟨[⟨1, "A", "B", "F", "K", 5⟩], [], 0⟩).1)
      ∧ read_all_students 0 100
            ((read_all_students 0 100 ⟨[⟨1, "A", "B", "F", "K", 5⟩], [], 0⟩).2)
          = ((read_all_students 0 100 ⟨[⟨1, "A", "B", "F", "K", 5⟩], [], 0⟩).1,
             (read_all_students 0 100 ⟨[⟨1, "A", "B", "F", "K", 5⟩], [], 0⟩).2)) :=
  ⟨rfl, C5_read_through ⟨[⟨1, "A", "B", "F", "K", 5⟩], [], 0⟩ 0 100 rfl⟩

/-! ### Session-store lemmas -/

theorem db_get_current_user_unknown {users : List UserRec} {now : Int} {t : String}
    (ht : t ≠ "") (h : ∀ u ∈ users, u.session_token ≠ some t) :
    db_get_current_user users now t = (none, users) := by
  unfold db_get_current_user
  rw [if_neg ht]
  have hfind : users.find? (fun u => u.session_token == some t) = none := by
    rw [List.find?_eq_none]
    intro u hu
    simp only [beq_iff_eq]
    exact h u hu
  rw [hfind]

/-- Lookup by username commutes with a map that preserves the username of
every member. -/
theorem find_username_map (username : String) (g : UserRec → UserRec) :
    ∀ users : List UserRec, (∀ y ∈ users, (g y).username = y.username) →
      (users.map g).find? (fun a => a.username == username)
        = (users.find? (fun a => a.username == username)).map g
  | [], _ => rfl
  | y :: ys, hg => by
    rw [List.map_cons, List.find?_cons, List.find?_cons]
    have hy : ((g y).username == username) = (y.username == username) := by
      rw [hg y (List.mem_cons_self y ys)]
    rw [hy]
    cases hb : (y.username == username) with
    | true => rfl
    | false =>
      exact find_username_map username g ys
        (fun z hz => hg z (List.mem_cons_of_mem _ hz))

/-- Reduction of `login_user` when the username is found and the password
verifies. -/
theorem login_user_found {users : List UserRec} {now : Int} {tk username pw : String}
    {u : UserRec}
    (hf : users.find? (fun a => a.username == username) = some u)
    (hv : verify_password pw u.password = true) :
    login_user users now tk username pw =
      .ok ({ u with session_token := some tk, token_expiry := some (now + 86400) },
        users.map (fun v => if v.id == u.id then
          { u with session_token := some tk, token_expiry := some (now + 86400) }
          else v)) := by
  unfold login_user
  rw [hf]
  simp only [hv, if_true]

/-- Reduction of `db_get_current_user` on a matched, truly expired token. -/
theorem db_gcu_found_expired {users : List UserRec} {now : Int} {t : String}
    {u : UserRec} {e : Int}
    (ht : t ≠ "")
    (hfind : users.find? (fun v => v.session_token == some t) = some u)
    (hexp : u.token_expiry = some e) (hz : e ≠ 0) (hnow : now > e) :
    db_get_current_user users now t
      = (none, users.map (fun v =>
          if v.id == u.id then { v with session_token := none, token_expiry := none }
          else v)) := by
  unfold db_get_current_user
  rw [if_neg ht, hfind]
  simp only [hexp]
  rw [if_pos ⟨hz, hnow⟩]

/-- C7, counterexample.  A stored user whose `session_token` matches but
whose `token_expiry` is `0` is returned as authenticated at `now = 5 > 0`
and nothing is purged: `validate` does not return absent even though
`now > expiry`, because `if user.token_expiry` treats `0` as falsy. -/
theorem C7_counterexample :
    db_get_current_user [⟨1, "admin", "admin123_hashed", some "tok", some 0⟩] 5 "tok"
      = (some ⟨1, "admin", "admin123_hashed", some "tok", some 0⟩,
         [⟨1, "admin", "admin123_hashed", some "tok", some 0⟩]) := by decide

/-- C7, amended.  `validate(token)` returns absent when the token is unknown
(leaving the table untouched), and when the matched user's stored expiry is
present, non-zero and `now > expiry`; in that expired case it also clears the
stored token and expiry, so afterwards no user holds the token and repeating
the call yields the same absent result with no further change (idempotent
lazy purge).  A matching user with absent or zero expiry is not treated as
expired. -/
theorem C7_amended_lazy_expiry :
    (∀ (users : List UserRec) (now : Int) (t : String), t ≠ "" →
        (∀ u ∈ users, u.session_token ≠ some t) →
        db_get_current_user users now t = (none, users))
    ∧ (∀ (users : List UserRec) (now : Int) (t : String) (u : UserRec) (e : Int),
        t ≠ "" →
        users.find? (fun v => v.session_token == some t) = some u →
        u.token_expiry = some e → e ≠ 0 → now > e →
        (∀ v ∈ users, v.session_token = some t → v.id = u.id) →
        (db_get_current_user users now t).1 = none
        ∧ (∀ v ∈ (db_get_current_user users now t).2, v.session_token ≠ some t)
        ∧ db_get_current_user (db_get_current_user users now t).2 now t
            = (none, (db_get_current_user users now t).2)) := by
  refine ⟨fun _ _ _ ht h => db_get_current_user_unknown ht h, ?_⟩
  intro users now t u e ht hfind hexp hz hnow huniq
  have hres := db_gcu_found_expired ht hfind hexp hz hnow
  have hclean : ∀ v ∈ (db_get_current_user users now t).2,
      v.session_token ≠ some t := by
    rw [hres]
    intro v hv
    obtain ⟨y, hy, hfy⟩ := List.mem_map.mp hv
    by_cases hid : (y.id == u.id) = true
    · simp only [hid, if_true] at hfy
      rw [← hfy]
      intro hcontra
      exact Option.noConfusion hcontra
    · rw [Bool.not_eq_true] at hid
      simp only [hid, Bool.false_eq_true, if_false] at hfy
      rw [← hfy]
      intro hcontra
      have hyu := huniq y hy hcontra
      simp [hyu] at hid
  refine ⟨by rw [hres], hclean, ?_⟩
  exact db_get_current_user_unknown ht hclean

/-- Witness for C7 (amended): an expired non-zero token is rejected and
purged at a concrete state. -/
theorem C7_witness :
    ((99 : Int) > 10 ∧ (10 : Int) ≠ 0)
    ∧ ((db_get_current_user [⟨1, "admin", "admin123_hashed", some "tok", some 10⟩]
          99 "tok").1 = none
      ∧ (∀ v ∈ (db_get_current_user
            [⟨1, "admin", "admin123_hashed", some "tok", some 10⟩] 99 "tok").2,
          v.session_token ≠ some "tok")
      ∧ db_get_current_user
          (db_get_current_user
            [⟨1, "admin", "admin123_hashed", some "tok", some 10⟩] 99 "tok").2 99 "tok"
          = (none,
             (db_get_current_user
               [⟨1, "admin", "admin123_hashed", some "tok", some 10⟩] 99 "tok").2)) :=
  ⟨⟨by decide, by decide⟩,
   C7_amended_lazy_expiry.2
     [⟨1, "admin", "admin123_hashed", some "tok", some 10⟩] 99 "tok"
     ⟨1, "admin", "admin123_hashed", some "tok", some 10⟩ 10
     (by decide) rfl rfl (by decide) (by decide) (by decide)⟩

/-- C8.  A successful login stores the freshly generated token on the user
with expiry `now + 86400` (24 hours), overwriting any prior token; after two
successive successful logins of the same user (with distinct generated
tokens, as `secrets.token_urlsafe` guarantees up to collision), validating
the first login's token returns absent.  `hpk` is the primary-key uniqueness
of user ids; `hfresh` says the fresh first token is held by nobody before
the logins. -/
theorem C8_login_overwrite
    (users users1 users2 : List UserRec) (u1 u2 : UserRec)
    (username pw : String) (now1 now2 now3 : Int) (t1 t2 : String)
    (hpk : ∀ v ∈ users, ∀ w ∈ users, v.id = w.id → v = w)
    (hfresh : ∀ v ∈ users, v.session_token ≠ some t1)
    (ht1 : t1 ≠ "") (hne : t2 ≠ t1)
    (h1 : login_user users now1 t1 username pw = .ok (u1, users1))
    (h2 : login_user users1 now2 t2 username pw = .ok (u2, users2)) :
    u1.session_token = some t1 ∧ u1.token_expiry = some (now1 + 86400)
    ∧ u2.session_token = some t2 ∧ u2.token_expiry = some (now2 + 86400)
    ∧ db_get_current_user users2 now3 t1 = (none, users2) := by
  cases hf : users.find? (fun a => a.username == username) with
  | none =>
    unfold login_user at h1
    rw [hf] at h1
    exact Except.noConfusion h1
  | some u =>
    have hu_mem : u ∈ users := List.mem_of_find?_eq_some hf
    cases hv : verify_password pw u.password with
    | false =>
      unfold login_user at h1
      rw [hf] at h1
      simp [hv] at h1
    | true =>
      rw [login_user_found hf hv] at h1
      injection h1 with h1'
      injection h1' with hu1 husers1
      -- the map applied by the first login preserves usernames
      have hg_name : ∀ y ∈ users,
          ((fun v => if v.id == u.id then
              { u with session_token := some t1, token_expiry := some (now1 + 86400) }
            else v) y).username = y.username := by
        intro y hy
        by_cases hid : (y.id == u.id) = true
        · have hyu : y = u := hpk y hy u hu_mem (by rwa [beq_iff_eq] at hid)
          simp [hid, hyu]
        · rw [Bool.not_eq_true] at hid
          simp [hid]
      have hfind1 : users1.find? (fun a => a.username == username)
          = some { u with session_token := some t1, token_expiry := some (now1 + 86400) } := by
        rw [← husers1, find_username_map username _ users hg_name, hf, Option.map_some']
        simp
      have hv2 : verify_password pw
          (UserRec.mk u.id u.username u.password (some t1)
            (some (now1 + 86400))).password = true := hv
      rw [login_user_found hfind1 hv2] at h2
      injection h2 with h2'
      injection h2' with hu2 husers2
      refine ⟨by rw [← hu1], by rw [← hu1], by rw [← hu2], by rw [← hu2], ?_⟩
      apply db_get_current_user_unknown ht1
      intro x hx
      rw [← husers2] at hx
      obtain ⟨y1, hy1, hfy1⟩ := List.mem_map.mp hx
      rw [← husers1] at hy1
      obtain ⟨y0, hy0, hfy0⟩ := List.mem_map.mp hy1
      by_cases hid0 : (y0.id == u.id) = true
      · -- the logged-in user: carries t2 after the second login
        simp only [hid0, if_true] at hfy0
        rw [← hfy0] at hfy1
        simp only [beq_self_eq_true, if_true] at hfy1
        rw [← hfy1]
        intro hcontra
        injection hcontra with hc
        exact hne hc
      · -- any other user: untouched by both logins
        rw [Bool.not_eq_true] at hid0
        simp only [hid0, Bool.false_eq_true, if_false] at hfy0
        rw [← hfy0] at hfy1
        simp only [hid0, Bool.false_eq_true, if_false] at hfy1
        rw [← hfy1]
        exact hfresh y0 hy0

/-- Witness for C8: two concrete logins of the test user; the first token
no longer validates afterwards. -/
theorem C8_witness :
    login_user [⟨1, "admin", "admin123_hashed", none, none⟩] 0 "tokA" "admin" "admin123"
      = .ok (⟨1, "admin", "admin123_hashed", some "tokA", some 86400⟩,
             [⟨1, "admin", "admin123_hashed", some "tokA", some 86400⟩])
    ∧ login_user [⟨1, "admin", "admin123_hashed", some "tokA", some 86400⟩]
        5 "tokB" "admin" "admin123"
      = .ok (⟨1, "admin", "admin123_hashed", some "tokB", some 86405⟩,
             [⟨1, "admin", "admin123_hashed", some "tokB", some 86405⟩])
    ∧ ((⟨1, "admin", "admin123_hashed", some "tokA", some 86400⟩ : UserRec).session_token
          = some "tokA"
      ∧ (⟨1, "admin", "admin123_hashed", some "tokA", some 86400⟩ : UserRec).token_expiry
          = some (0 + 86400)
      ∧ (⟨1, "admin", "admin123_hashed", some "tokB", some 86405⟩ : UserRec).session_token
          = some "tokB"
      ∧ (⟨1, "admin", "admin123_hashed", some "tokB", some 86405⟩ : UserRec).token_expiry
          = some (5 + 86400)
      ∧ db_get_current_user [⟨1, "admin", "admin123_hashed", some "tokB", some 86405⟩]
          10 "tokA"
        = (none, [⟨1, "admin", "admin123_hashed", some "tokB", some 86405⟩])) :=
  ⟨rfl, rfl,
   C8_login_overwrite
     [⟨1, "admin", "admin123_hashed", none, none⟩]
     [⟨1, "admin", "admin123_hashed", some "tokA", some 86400⟩]
     [⟨1, "admin", "admin123_hashed", some "tokB", some 86405⟩]
     ⟨1, "admin", "admin123_hashed", some "tokA", some 86400⟩
     ⟨1, "admin", "admin123_hashed", some "tokB", some 86405⟩
     "admin" "admin123" 0 5 10 "tokA" "tokB"
     (by decide) (by decide) (by decide) (by decide) rfl rfl⟩

/-- C10.  A stored user whose `session_token` equals the presented token but
whose `token_expiry` is absent (`None`) or `0` is returned as authenticated
regardless of the current time, and nothing is purged: the expiry comparison
runs only when `token_expiry` is truthy, so such a token never expires. -/
theorem C10_zero_expiry_never_expires
    (users : List UserRec) (now : Int) (t : String) (u : UserRec)
    (ht : t ≠ "")
    (hfind : users.find? (fun v => v.session_token == some t) = some u)
    (hexp : u.token_expiry = none ∨ u.token_expiry = some 0) :
    db_get_current_user users now t = (some u, users) := by
  unfold db_get_current_user
  rw [if_neg ht, hfind]
  rcases hexp with h | h <;> simp only [h]
  rw [if_neg (by simp)]

/-- Witness for C10: a token with zero expiry validates at a late time. -/
theorem C10_witness :
    ("tok" : String) ≠ ""
    ∧ db_get_current_user [⟨1, "admin", "admin123_hashed", some "tok", some 0⟩]
        1000000 "tok"
      = (some ⟨1, "admin", "admin123_hashed", some "tok", some 0⟩,
         [⟨1, "admin", "admin123_hashed", some "tok", some 0⟩]) :=
  ⟨by decide,
   C10_zero_expiry_never_expires
     [⟨1, "admin", "admin123_hashed", some "tok", some 0⟩] 1000000 "tok"
     ⟨1, "admin", "admin123_hashed", some "tok", some 0⟩
     (by decide) rfl (Or.inr rfl)⟩

end Dz3
